import Mathlib

/-!
Shallow embedding of the Water Buddy hydration app (src/app.py): the data
model (profile, intake log, badges) and the business-rule core (goal
calculation, daily aggregation, the predictor heuristic and badge
evaluation), together with theorems checking the specification claims.

Timestamps matter to the business logic only through the local calendar
date of each log row (the SQL queries bucket rows by whole days), so an
intake event is modelled by its calendar day, an integer day number, plus
its amount; the current date enters as an explicit today parameter.
Python floats are modelled by exact rationals, and the stateful functions
that read the SQLite stores become functions of an explicit state value.
-/

namespace WaterBuddy

/-- One row of the logs table: the calendar day of logged_at, as an
integer day number, and amount_ml. -/
structure IntakeEvent where
  day : ℤ
  amount_ml : ℤ
deriving DecidableEq, Repr

/-- One row of the profile table (created_at omitted: it is never read by
the business logic). -/
structure Profile where
  name : String
  age : ℤ
  weight_kg : ℚ
  activity : String
deriving DecidableEq, Repr

/-- The persistent state of the app: the latest profile row (if any), the
append-only log, and the names of the earned badges. -/
structure AppState where
  profile : Option Profile
  logs : List IntakeEvent
  badges : List String
deriving DecidableEq, Repr

/-- Python int() applied to a number: truncation toward zero. -/
def pyInt (q : ℚ) : ℤ := if q < 0 then ⌈q⌉ else ⌊q⌋

/-- BASE_ML_PER_KG from app.py. -/
def BASE_ML_PER_KG : ℚ := 35

/-- calculate_goal_ml from app.py: base times the accumulated multiplier,
truncated to an integer. -/
def calculate_goal_ml (weight_kg : ℚ) (age : Option ℤ) (activity : String)
    (weather_temp_c : Option ℚ) : ℤ :=
  let base := weight_kg * BASE_ML_PER_KG
  let m0 : ℚ := 1
  let m1 : ℚ :=
    if activity = "low" then m0 * (95/100)
    else if activity = "high" then m0 * (12/10)
    else m0
  let m2 : ℚ :=
    match age with
    | some a => if a ≥ 65 then m1 * (9/10) else m1
    | none => m1
  let m3 : ℚ :=
    match weather_temp_c with
    | some t =>
      if t ≥ 30 then m2 * (125/100)
      else if t ≥ 25 then m2 * (110/100)
      else m2
    | none => m2
  pyInt (base * m3)

/-- estimate_bottles_saved from app.py: float division guarded by the
try/except that turns a ZeroDivisionError into 0.0. -/
def estimate_bottles_saved (total_ml : ℚ) (bottle_size_ml : ℚ) : ℚ :=
  if bottle_size_ml = 0 then 0 else total_ml / bottle_size_ml

/-- Sum of the amount_ml column over a list of log rows. -/
def sum_amounts (events : List IntakeEvent) : ℤ :=
  (events.map IntakeEvent.amount_ml).sum

/-- Total amount logged on calendar day d: the SELECT SUM query of app.py
restricted to the rows of one day (an empty SUM reads as 0). -/
def day_total (events : List IntakeEvent) (d : ℤ) : ℤ :=
  sum_amounts (events.filter (fun e => decide (e.day = d)))

/-- get_totals_for_days from app.py: one (date, total) entry per calendar
day, for the last days days, oldest first, ending at today. -/
def get_totals_for_days (events : List IntakeEvent) (today : ℤ) (days : ℕ) :
    List (ℤ × ℤ) :=
  ((List.range days).reverse).map
    (fun i : ℕ => (today - (i : ℤ), day_total events (today - (i : ℤ))))

/-- get_today_total from app.py. -/
def get_today_total (events : List IntakeEvent) (today : ℤ) : ℤ :=
  day_total events today

/-- The goal both predictor_adjustment and check_badges_and_streaks derive
from the profile row: no weather argument is passed at those call sites. -/
def profile_goal (p : Profile) : ℤ :=
  calculate_goal_ml p.weight_kg (some p.age) p.activity none

/-- The local variable avg of predictor_adjustment: the mean of the last
3 entries of the 7-day totals (the Python slice totals[-3:], guarded so
the divisor is never zero). -/
def recent_avg (logs : List IntakeEvent) (today : ℤ) : ℚ :=
  let totals := get_totals_for_days logs today 7
  let recent := if totals.length ≥ 1 then totals.drop (totals.length - 3) else totals
  let count : ℕ := if recent.length > 0 then recent.length else 1
  (((recent.map Prod.snd).sum : ℤ) : ℚ) / (count : ℚ)

/-- predictor_adjustment from app.py, with the stores it reads passed as
an explicit state. -/
def predictor_adjustment (s : AppState) (today : ℤ) : ℚ :=
  match s.profile with
  | none => 1
  | some p =>
    if recent_avg s.logs today < (7/10) * (profile_goal p : ℚ) then 12/10
    else if recent_avg s.logs today < (9/10) * (profile_goal p : ℚ) then 21/20
    else 1

/-- The local variable good_days of check_badges_and_streaks: how many of
the last 7 day totals reach 75 percent of the goal. -/
def good_days (p : Profile) (logs : List IntakeEvent) (today : ℤ) : ℕ :=
  ((get_totals_for_days logs today 7).filter
    (fun t => decide ((t.2 : ℚ) ≥ (75/100) * (profile_goal p : ℚ)))).length

/-- The badges store after the 7-day-streak insert of
check_badges_and_streaks (the local variable badges1). -/
def badges_after_streak (p : Profile) (logs : List IntakeEvent)
    (badges : List String) (today : ℤ) : List String :=
  if good_days p logs today = 7 ∧ "7-day-streak" ∉ badges
  then badges ++ ["7-day-streak"] else badges

/-- The badges store after the first-log insert of
check_badges_and_streaks (the local variable badges2), given the log
row count total_logs. -/
def badges_after_first_log (total_logs : ℕ) (badges1 : List String) : List String :=
  if total_logs ≥ 1 ∧ "first-log" ∉ badges1
  then badges1 ++ ["first-log"] else badges1

/-- check_badges_and_streaks from app.py: returns without touching the
badge store when no profile exists; otherwise inserts the 7-day-streak
badge when all 7 recent day totals reach 75 percent of the goal and the
badge is absent, then inserts the first-log badge when the log is
non-empty and that badge is absent. -/
def check_badges_and_streaks (s : AppState) (today : ℤ) : AppState :=
  match s.profile with
  | none => s
  | some p =>
    { s with badges := badges_after_first_log s.logs.length (badges_after_streak p s.logs s.badges today) }

/-- log_water_ml from app.py: append the event, then re-evaluate badges. -/
def log_water_ml (s : AppState) (today : ℤ) (amount_ml : ℤ) : AppState :=
  let s1 : AppState := { s with logs := s.logs ++ [⟨today, amount_ml⟩] }
  check_badges_and_streaks s1 today

/-- The badges a run of check_badges_and_streaks newly earns: those in the
resulting badge store that were not in the store before. -/
def newly_earned (s : AppState) (today : ℤ) : List String :=
  ((check_badges_and_streaks s today).badges).filter (fun b => decide (b ∉ s.badges))

/-- Activity multiplier as the spec words it: low 0.95, high 1.2, else 1. -/
def spec_activity_factor (activity : String) : ℚ :=
  if activity = "low" then 95/100 else if activity = "high" then 12/10 else 1

/-- Age multiplier as the spec words it: 0.9 from age 65 on, else 1. -/
def spec_age_factor (age : Option ℤ) : ℚ :=
  match age with
  | some a => if a ≥ 65 then 9/10 else 1
  | none => 1

/-- Weather multiplier as the spec words it: 1.25 from 30 degrees, 1.10
from 25 degrees, else 1. -/
def spec_weather_factor (weather_temp_c : Option ℚ) : ℚ :=
  match weather_temp_c with
  | some t => if t ≥ 30 then 125/100 else if t ≥ 25 then 110/100 else 1
  | none => 1

/-- C1: for every positive weight, calculate_goal_ml is the integer
truncation of weight times 35 times the activity factor, times the age
factor, times the weather factor; and the three quoted example values. -/
theorem calculate_goal_ml_spec :
    (∀ (w : ℚ) (age : Option ℤ) (act : String) (temp : Option ℚ), 0 < w →
      calculate_goal_ml w age act temp
        = pyInt (w * 35 * spec_activity_factor act * spec_age_factor age
            * spec_weather_factor temp))
    ∧ calculate_goal_ml 70 (some 30) "normal" none = 2450
    ∧ calculate_goal_ml 70 (some 70) "normal" none = 2205
    ∧ calculate_goal_ml 70 (some 30) "high" (some 31) = 3675 := by
  have h1 : ¬ (("normal" : String) = "low") := by decide
  have h2 : ¬ (("normal" : String) = "high") := by decide
  have h3 : ¬ (("high" : String) = "low") := by decide
  refine ⟨?_, ?_, ?_, ?_⟩
  · intro w age act temp _
    cases age <;> cases temp <;>
      (unfold calculate_goal_ml BASE_ML_PER_KG spec_activity_factor
        spec_age_factor spec_weather_factor) <;>
      dsimp only <;> split_ifs <;> (congr 1; ring)
  · norm_num [calculate_goal_ml, BASE_ML_PER_KG, pyInt, if_neg h1, if_neg h2]
  · norm_num [calculate_goal_ml, BASE_ML_PER_KG, pyInt, if_neg h1, if_neg h2]
  · norm_num [calculate_goal_ml, BASE_ML_PER_KG, pyInt, if_neg h3]

/-- C1 witness: the universal part of calculate_goal_ml_spec applied at a
concrete input. -/
theorem calculate_goal_ml_spec_witness :
    (0 : ℚ) < 70
    ∧ calculate_goal_ml 70 (some 70) "low" (some 26)
        = pyInt (70 * 35 * spec_activity_factor "low" * spec_age_factor (some 70)
            * spec_weather_factor (some 26)) :=
  ⟨by norm_num, calculate_goal_ml_spec.1 70 (some 70) "low" (some 26) (by norm_num)⟩

/-- C8: get_today_total computes the same value as the total_ml of the
last entry of get_totals_for_days with days = 1. -/
theorem today_total_refines_totals :
    ∀ (logs : List IntakeEvent) (today : ℤ),
      Option.map Prod.snd ((get_totals_for_days logs today 1).getLast?)
        = some (get_today_total logs today) := by
  intro logs today
  have h : get_totals_for_days logs today 1
      = [(today - ((0 : ℕ) : ℤ), day_total logs (today - ((0 : ℕ) : ℤ)))] := rfl
  rw [h]
  simp [get_today_total]

/-- C9: estimate_bottles_saved divides total by the bottle size for every
positive bottle size, returns 0 for a zero bottle size, and takes the two
quoted example values. -/
theorem estimate_bottles_saved_spec :
    (∀ (total bottle : ℚ), 0 < bottle → estimate_bottles_saved total bottle = total / bottle)
    ∧ (∀ total : ℚ, estimate_bottles_saved total 0 = 0)
    ∧ estimate_bottles_saved 1000 500 = 2
    ∧ estimate_bottles_saved 1000 0 = 0 := by
  refine ⟨?_, ?_, ?_, ?_⟩
  · intro total bottle hb
    rw [estimate_bottles_saved, if_neg (ne_of_gt hb)]
  · intro total
    simp [estimate_bottles_saved]
  · norm_num [estimate_bottles_saved]
  · simp [estimate_bottles_saved]

/-- C9 witness: the guarded-division part of estimate_bottles_saved_spec
applied at a concrete positive bottle size. -/
theorem estimate_bottles_saved_spec_witness :
    (0 : ℚ) < 500 ∧ estimate_bottles_saved 1000 500 = 1000 / 500 :=
  ⟨by norm_num, estimate_bottles_saved_spec.1 1000 500 (by norm_num)⟩

/-- C10: with no profile, check_badges_and_streaks leaves the whole state,
and in particular the badge store, unchanged, whatever has been logged. -/
theorem check_badges_no_profile_frame :
    ∀ (logs : List IntakeEvent) (badges : List String) (today : ℤ),
      check_badges_and_streaks ⟨none, logs, badges⟩ today = ⟨none, logs, badges⟩ :=
  fun _ _ _ => rfl

theorem sum_amounts_cons (e : IntakeEvent) (l : List IntakeEvent) :
    sum_amounts (e :: l) = e.amount_ml + sum_amounts l := by
  simp [sum_amounts]

theorem sum_amounts_filter_disjoint (p q : IntakeEvent → Bool)
    (l : List IntakeEvent) (h : ∀ e, ¬(p e = true ∧ q e = true)) :
    sum_amounts (l.filter (fun e => p e || q e))
      = sum_amounts (l.filter p) + sum_amounts (l.filter q) := by
  induction l with
  | nil => rfl
  | cons a l ih =>
    cases hp : p a <;> cases hq : q a
    · simp [List.filter_cons, hp, hq, ih]
    · simp [List.filter_cons, hp, hq, sum_amounts_cons, ih]
      omega
    · simp [List.filter_cons, hp, hq, sum_amounts_cons, ih]
      omega
    · exact absurd ⟨hp, hq⟩ (h a)

theorem totals_sum_eq (logs : List IntakeEvent) (today : ℤ) :
    ∀ n : ℕ, ((get_totals_for_days logs today n).map Prod.snd).sum
      = sum_amounts (logs.filter
          (fun e => decide (today - (n : ℤ) < e.day ∧ e.day ≤ today))) := by
  intro n
  induction n with
  | zero =>
    have h0 : get_totals_for_days logs today 0 = [] := rfl
    rw [h0]
    have hnil : logs.filter
        (fun e => decide (today - ((0 : ℕ) : ℤ) < e.day ∧ e.day ≤ today)) = [] := by
      rw [List.filter_eq_nil_iff]
      intro e _
      simp only [decide_eq_true_eq]
      omega
    rw [hnil]
    rfl
  | succ n ih =>
    have hsplit : get_totals_for_days logs today (n + 1)
        = (today - (n : ℤ), day_total logs (today - (n : ℤ)))
            :: get_totals_for_days logs today n := by
      unfold get_totals_for_days
      rw [List.range_succ, List.reverse_append]
      rfl
    rw [hsplit]
    simp only [List.map_cons, List.sum_cons]
    rw [ih]
    have hdisj : ∀ e : IntakeEvent,
        ¬((fun e : IntakeEvent => decide (e.day = today - (n : ℤ))) e = true
          ∧ (fun e : IntakeEvent =>
              decide (today - (n : ℤ) < e.day ∧ e.day ≤ today)) e = true) := by
      intro e
      simp only [decide_eq_true_eq]
      omega
    have hd : day_total logs (today - (n : ℤ))
        = sum_amounts (logs.filter (fun e => decide (e.day = today - (n : ℤ)))) := rfl
    rw [hd, ← sum_amounts_filter_disjoint _ _ logs hdisj]
    congr 1
    apply List.filter_congr
    intro e _
    rw [← Bool.decide_or, decide_eq_decide]
    omega

/-- C4: the 7 entries of get_totals_for_days with days = 7 sum to exactly
the amounts of the events whose day falls within the last 7 calendar days:
each event is counted once inside the window and not at all outside it. -/
theorem totals_partition (logs : List IntakeEvent) (today : ℤ)
    (h : ∀ e ∈ logs, 0 ≤ e.amount_ml) :
    ((get_totals_for_days logs today 7).map Prod.snd).sum
      = sum_amounts (logs.filter
          (fun e => decide (today - 6 ≤ e.day ∧ e.day ≤ today))) := by
  rw [totals_sum_eq logs today 7]
  congr 1
  apply List.filter_congr
  intro e _
  rw [decide_eq_decide]
  omega

/-- C4 witness: totals_partition at a concrete log containing one event
inside the window, one older event inside it, and one outside. -/
theorem totals_partition_witness :
    (∀ e ∈ ([⟨0, 100⟩, ⟨-3, 50⟩, ⟨-10, 7⟩] : List IntakeEvent), 0 ≤ e.amount_ml)
    ∧ ((get_totals_for_days [⟨0, 100⟩, ⟨-3, 50⟩, ⟨-10, 7⟩] 0 7).map Prod.snd).sum
        = sum_amounts (([⟨0, 100⟩, ⟨-3, 50⟩, ⟨-10, 7⟩] : List IntakeEvent).filter
            (fun e => decide ((0 : ℤ) - 6 ≤ e.day ∧ e.day ≤ 0))) :=
  ⟨by decide, totals_partition _ 0 (by decide)⟩

theorem mem_newly_earned (s : AppState) (today : ℤ) (b : String) :
    b ∈ newly_earned s today
      ↔ b ∈ (check_badges_and_streaks s today).badges ∧ b ∉ s.badges := by
  simp [newly_earned, List.mem_filter]

theorem check_badges_some_badges (p : Profile) (logs : List IntakeEvent)
    (badges : List String) (today : ℤ) :
    (check_badges_and_streaks ⟨some p, logs, badges⟩ today).badges
      = badges_after_first_log logs.length (badges_after_streak p logs badges today) := rfl

theorem first_log_mem_after_streak (p : Profile) (logs : List IntakeEvent)
    (badges : List String) (today : ℤ) :
    "first-log" ∈ badges_after_streak p logs badges today ↔ "first-log" ∈ badges := by
  have hne : ("first-log" : String) ≠ "7-day-streak" := by decide
  unfold badges_after_streak
  split_ifs with hc
  · simp [hne]
  · exact Iff.rfl

theorem streak_mem_after_first_log (total_logs : ℕ) (b1 : List String) :
    "7-day-streak" ∈ badges_after_first_log total_logs b1 ↔ "7-day-streak" ∈ b1 := by
  have hne : ("7-day-streak" : String) ≠ "first-log" := by decide
  unfold badges_after_first_log
  split_ifs with hc
  · simp [hne]
  · exact Iff.rfl

theorem first_log_mem_after_first_log (total_logs : ℕ) (b1 : List String) :
    "first-log" ∈ badges_after_first_log total_logs b1
      ↔ ("first-log" ∈ b1 ∨ total_logs ≥ 1) := by
  unfold badges_after_first_log
  split_ifs with hc
  · simp [hc.1]
  · push_neg at hc
    constructor
    · exact fun h => Or.inl h
    · rintro (h | h)
      · exact h
      · exact hc h

theorem streak_mem_after_streak (p : Profile) (logs : List IntakeEvent)
    (badges : List String) (today : ℤ) :
    "7-day-streak" ∈ badges_after_streak p logs badges today
      ↔ ("7-day-streak" ∈ badges ∨ good_days p logs today = 7) := by
  unfold badges_after_streak
  split_ifs with hc
  · simp [hc.1]
  · push_neg at hc
    constructor
    · exact fun h => Or.inl h
    · rintro (h | h)
      · exact h
      · exact hc h

theorem first_log_mem_check (p : Profile) (logs : List IntakeEvent)
    (badges : List String) (today : ℤ) :
    "first-log" ∈ (check_badges_and_streaks ⟨some p, logs, badges⟩ today).badges
      ↔ ("first-log" ∈ badges ∨ logs.length ≥ 1) := by
  rw [check_badges_some_badges, first_log_mem_after_first_log, first_log_mem_after_streak]

theorem streak_mem_check (p : Profile) (logs : List IntakeEvent)
    (badges : List String) (today : ℤ) :
    "7-day-streak" ∈ (check_badges_and_streaks ⟨some p, logs, badges⟩ today).badges
      ↔ ("7-day-streak" ∈ badges ∨ good_days p logs today = 7) := by
  rw [check_badges_some_badges, streak_mem_after_first_log, streak_mem_after_streak]

/-- C2 counterexample: with one logged event and an empty badge store but
no profile, badge evaluation earns nothing, so the claimed equivalence,
read over every log and badge state regardless of the profile, fails. -/
theorem first_log_badge_claim_counterexample :
    ¬ (("first-log" ∈ newly_earned ⟨none, [⟨0, 250⟩], []⟩ 0)
        ↔ (([⟨0, 250⟩] : List IntakeEvent) ≠ [] ∧ "first-log" ∉ ([] : List String))) := by
  have h0 : newly_earned ⟨none, [⟨0, 250⟩], []⟩ 0 = [] := rfl
  rw [h0]
  intro hiff
  exact absurd (hiff.mpr ⟨by decide, by decide⟩) (List.not_mem_nil _)

/-- C2 amended: provided a profile exists, the first-log badge is newly
earned by badge evaluation iff the log is non-empty and the badge is not
already earned; after one event is appended to an empty log (with a
profile) the badge is present, and once present it survives every later
append. -/
theorem first_log_badge_amended :
    (∀ (p : Profile) (logs : List IntakeEvent) (badges : List String) (today : ℤ),
        ("first-log" ∈ newly_earned ⟨some p, logs, badges⟩ today
          ↔ (logs ≠ [] ∧ "first-log" ∉ badges)))
    ∧ (∀ (p : Profile) (badges : List String) (today amount : ℤ),
        "first-log" ∈ (log_water_ml ⟨some p, [], badges⟩ today amount).badges)
    ∧ (∀ (s : AppState) (today amount : ℤ),
        "first-log" ∈ s.badges → "first-log" ∈ (log_water_ml s today amount).badges) := by
  refine ⟨?_, ?_, ?_⟩
  · intro p logs badges today
    rw [mem_newly_earned, first_log_mem_check]
    constructor
    · rintro ⟨h1 | h1, h2⟩
      · exact absurd h1 h2
      · exact ⟨List.length_pos.mp h1, h2⟩
    · rintro ⟨h1, h2⟩
      exact ⟨Or.inr (List.length_pos.mpr h1), h2⟩
  · intro p badges today amount
    exact (first_log_mem_check p [⟨today, amount⟩] badges today).mpr
      (Or.inr (by simp))
  · intro s today amount h
    obtain ⟨prof, logs, badges⟩ := s
    cases prof with
    | none => exact h
    | some p =>
      exact (first_log_mem_check p (logs ++ [⟨today, amount⟩]) badges today).mpr (Or.inl h)

/-- C2 witness: the persistence part of first_log_badge_amended applied at
a concrete state that already holds the first-log badge. -/
theorem first_log_badge_amended_witness :
    "first-log" ∈ (⟨none, [], ["first-log"]⟩ : AppState).badges
    ∧ "first-log" ∈ (log_water_ml ⟨none, [], ["first-log"]⟩ 0 250).badges :=
  ⟨by decide, first_log_badge_amended.2.2 ⟨none, [], ["first-log"]⟩ 0 250 (by decide)⟩

/-- C6: a second run of badge evaluation, from the badge store the first
run left and the same log, newly earns nothing. -/
theorem badge_evaluation_idempotent :
    ∀ (s : AppState) (today : ℤ),
      newly_earned (check_badges_and_streaks s today) today = [] := by
  intro s today
  obtain ⟨prof, logs, badges⟩ := s
  cases prof with
  | none =>
    unfold newly_earned
    rw [List.filter_eq_nil_iff]
    intro b hb
    have hb2 : b ∈ badges := hb
    simp
    exact hb2
  | some p =>
    unfold newly_earned
    have hstate : check_badges_and_streaks ⟨some p, logs, badges⟩ today
        = ⟨some p, logs,
            badges_after_first_log logs.length (badges_after_streak p logs badges today)⟩ := rfl
    rw [hstate]
    have hsecond : (check_badges_and_streaks
        ⟨some p, logs,
          badges_after_first_log logs.length (badges_after_streak p logs badges today)⟩
        today).badges
      = badges_after_first_log logs.length (badges_after_streak p logs badges today) := by
      rw [check_badges_some_badges]
      have h1 : badges_after_streak p logs
          (badges_after_first_log logs.length (badges_after_streak p logs badges today)) today
        = badges_after_first_log logs.length (badges_after_streak p logs badges today) := by
        unfold badges_after_streak
        rw [if_neg]
        rintro ⟨hg, hmem⟩
        exact hmem ((streak_mem_check p logs badges today).mpr (Or.inr hg))
      rw [h1]
      unfold badges_after_first_log
      rw [if_neg]
      rintro ⟨hlen, hmem⟩
      exact hmem ((first_log_mem_check p logs badges today).mpr (Or.inr hlen))
    rw [hsecond]
    rw [List.filter_eq_nil_iff]
    intro b hb
    simp
    exact hb

theorem good_days_eq_seven_iff (p : Profile) (logs : List IntakeEvent) (today : ℤ) :
    good_days p logs today = 7
      ↔ (∀ i : ℕ, i < 7 → ((day_total logs (today - (i : ℤ)) : ℚ)
          ≥ (75/100) * (profile_goal p : ℚ))) := by
  have hlen : (get_totals_for_days logs today 7).length = 7 := rfl
  unfold good_days
  rw [← List.countP_eq_length_filter]
  have key := @List.countP_eq_length (ℤ × ℤ) (get_totals_for_days logs today 7)
    (fun t => decide ((t.2 : ℚ) ≥ (75/100) * (profile_goal p : ℚ)))
  rw [hlen] at key
  rw [key]
  constructor
  · intro h i hi
    have hmem : (today - (i : ℤ), day_total logs (today - (i : ℤ)))
        ∈ get_totals_for_days logs today 7 := by
      unfold get_totals_for_days
      exact List.mem_map.mpr ⟨i, by simpa [List.mem_reverse, List.mem_range] using hi, rfl⟩
    simpa [decide_eq_true_eq] using h _ hmem
  · intro h a ha
    unfold get_totals_for_days at ha
    rw [List.mem_map] at ha
    obtain ⟨i, hi, rfl⟩ := ha
    rw [List.mem_reverse, List.mem_range] at hi
    simpa [decide_eq_true_eq] using h i hi

/-- C5: with a profile present, the 7-day-streak badge is newly earned by
badge evaluation iff every one of the last 7 day totals reaches 75 percent
of the goal computed from the profile without a weather term, and the
badge is not already earned. -/
theorem streak_badge_iff :
    ∀ (p : Profile) (logs : List IntakeEvent) (badges : List String) (today : ℤ),
      ("7-day-streak" ∈ newly_earned ⟨some p, logs, badges⟩ today
        ↔ ((∀ i : ℕ, i < 7 → ((day_total logs (today - (i : ℤ)) : ℚ)
              ≥ (75/100) * (profile_goal p : ℚ)))
            ∧ "7-day-streak" ∉ badges)) := by
  intro p logs badges today
  rw [mem_newly_earned, streak_mem_check, ← good_days_eq_seven_iff]
  constructor
  · rintro ⟨h1 | h1, h2⟩
    · exact absurd h1 h2
    · exact ⟨h1, h2⟩
  · rintro ⟨h1, h2⟩
    exact ⟨Or.inr h1, h2⟩

/-- C5 witness: streak_badge_iff applied at a concrete profile and log for
which all 7 day totals reach the threshold, earning the badge. -/
theorem streak_badge_iff_witness :
    (∀ i : ℕ, i < 7 → ((day_total ([⟨0, 30⟩, ⟨-1, 30⟩, ⟨-2, 30⟩, ⟨-3, 30⟩, ⟨-4, 30⟩,
          ⟨-5, 30⟩, ⟨-6, 30⟩] : List IntakeEvent) ((0 : ℤ) - (i : ℤ)) : ℚ)
        ≥ (75/100) * (profile_goal ⟨"A", 30, 1, "normal"⟩ : ℚ)))
    ∧ "7-day-streak" ∉ ([] : List String)
    ∧ "7-day-streak" ∈ newly_earned
        ⟨some ⟨"A", 30, 1, "normal"⟩,
          [⟨0, 30⟩, ⟨-1, 30⟩, ⟨-2, 30⟩, ⟨-3, 30⟩, ⟨-4, 30⟩, ⟨-5, 30⟩, ⟨-6, 30⟩], []⟩ 0 := by
  have hne1 : ¬ (("normal" : String) = "low") := by decide
  have hne2 : ¬ (("normal" : String) = "high") := by decide
  have hgoal : profile_goal ⟨"A", 30, 1, "normal"⟩ = 35 := by
    norm_num [profile_goal, calculate_goal_ml, BASE_ML_PER_KG, pyInt, if_neg hne1, if_neg hne2]
  have h1 : ∀ i : ℕ, i < 7 → ((day_total ([⟨0, 30⟩, ⟨-1, 30⟩, ⟨-2, 30⟩, ⟨-3, 30⟩, ⟨-4, 30⟩,
        ⟨-5, 30⟩, ⟨-6, 30⟩] : List IntakeEvent) ((0 : ℤ) - (i : ℤ)) : ℚ)
      ≥ (75/100) * (profile_goal ⟨"A", 30, 1, "normal"⟩ : ℚ)) := by
    intro i hi
    rw [hgoal]
    interval_cases i <;>
      · rw [show day_total ([⟨0, 30⟩, ⟨-1, 30⟩, ⟨-2, 30⟩, ⟨-3, 30⟩, ⟨-4, 30⟩,
            ⟨-5, 30⟩, ⟨-6, 30⟩] : List IntakeEvent) _ = 30 from by decide]
        norm_num
  have h2 : "7-day-streak" ∉ ([] : List String) := by decide
  exact ⟨h1, h2, (streak_badge_iff ⟨"A", 30, 1, "normal"⟩ _ [] 0).mpr ⟨h1, h2⟩⟩

theorem recent_avg_eq (logs : List IntakeEvent) (today : ℤ) :
    recent_avg logs today
      = ((day_total logs today + day_total logs (today - 1)
          + day_total logs (today - 2) : ℤ) : ℚ) / 3 := by
  have h : recent_avg logs today
      = ((day_total logs (today - ((2 : ℕ) : ℤ))
            + (day_total logs (today - ((1 : ℕ) : ℤ))
              + (day_total logs (today - ((0 : ℕ) : ℤ)) + 0)) : ℤ) : ℚ) / ((3 : ℕ) : ℚ) := rfl
  rw [h]
  push_cast
  ring_nf

/-- C7: predictor_adjustment returns 1 with no profile, always lands in
the set of the three advisory values, and with a profile follows the
thresholds at 0.7 and 0.9 of the goal (computed without weather) applied
to the average of the last 3 day totals. -/
theorem predictor_adjustment_spec :
    ∀ (p : Profile) (logs : List IntakeEvent) (badges : List String) (today : ℤ),
      predictor_adjustment ⟨none, logs, badges⟩ today = 1
      ∧ (predictor_adjustment ⟨some p, logs, badges⟩ today = 1
          ∨ predictor_adjustment ⟨some p, logs, badges⟩ today = 21/20
          ∨ predictor_adjustment ⟨some p, logs, badges⟩ today = 12/10)
      ∧ predictor_adjustment ⟨some p, logs, badges⟩ today
          = (if ((day_total logs today + day_total logs (today - 1)
                  + day_total logs (today - 2) : ℤ) : ℚ) / 3
                < (7/10) * (profile_goal p : ℚ) then 12/10
             else if ((day_total logs today + day_total logs (today - 1)
                  + day_total logs (today - 2) : ℤ) : ℚ) / 3
                < (9/10) * (profile_goal p : ℚ) then 21/20
             else 1) := by
  intro p logs badges today
  have hsome : predictor_adjustment ⟨some p, logs, badges⟩ today
      = (if recent_avg logs today < (7/10) * (profile_goal p : ℚ) then 12/10
         else if recent_avg logs today < (9/10) * (profile_goal p : ℚ) then 21/20
         else 1) := rfl
  refine ⟨rfl, ?_, ?_⟩
  · rw [hsome]
    split_ifs
    · exact Or.inr (Or.inr rfl)
    · exact Or.inr (Or.inl rfl)
    · exact Or.inl rfl
  · rw [hsome, recent_avg_eq]

/-- C3 counterexample: with a profile present and an empty event history,
predictor_adjustment returns 1.2, not 1.0, refuting the claim that an
empty event history alone forces the value 1.0. -/
theorem predictor_empty_history_counterexample :
    predictor_adjustment ⟨some ⟨"You", 30, 70, "normal"⟩, [], []⟩ 0 ≠ 1 := by
  have hne1 : ¬ (("normal" : String) = "low") := by decide
  have hne2 : ¬ (("normal" : String) = "high") := by decide
  have hgoal : profile_goal ⟨"You", 30, 70, "normal"⟩ = 2450 := by
    norm_num [profile_goal, calculate_goal_ml, BASE_ML_PER_KG, pyInt, if_neg hne1, if_neg hne2]
  have havg : recent_avg ([] : List IntakeEvent) 0 = 0 := by
    rw [recent_avg_eq]
    norm_num [day_total, sum_amounts]
  have h : predictor_adjustment ⟨some ⟨"You", 30, 70, "normal"⟩, [], []⟩ 0
      = (if recent_avg ([] : List IntakeEvent) 0
            < (7/10) * (profile_goal ⟨"You", 30, 70, "normal"⟩ : ℚ) then 12/10
         else if recent_avg ([] : List IntakeEvent) 0
            < (9/10) * (profile_goal ⟨"You", 30, 70, "normal"⟩ : ℚ) then 21/20
         else 1) := rfl
  rw [h, havg, hgoal]
  norm_num

/-- C3 amended: when no profile exists, predictor_adjustment returns 1.0
whatever the event history, in particular for an empty one; with fewer
than 3 days of logged history the computation is total and the average
silently degrades over the zero-filled 7-day window. -/
theorem predictor_no_profile_amended :
    ∀ (logs : List IntakeEvent) (badges : List String) (today : ℤ),
      predictor_adjustment ⟨none, logs, badges⟩ today = 1 :=
  fun _ _ _ => rfl

end WaterBuddy
